import Mathlib

/-!
Shallow embedding of the crop-suitability simulation engine of
`src/server.js` (the `/api/simulate` handler and its helpers).

Modelling conventions:
* JavaScript numbers are modelled as exact rationals (`ℚ`); a value that may
  be `NaN`/absent ("unknown") is an `Option ℚ` with `none` standing for the
  non-finite case, matching the `isFinite` guards in the source.
* The one place where the source can divide by zero (`dist / span` in
  `rangeFit`) is modelled through the type `JSVal`, which carries the
  IEEE-style results `+∞`, `-∞` and `NaN` of dividing a finite numerator by
  zero, so that the presence or absence of `NaN` in the result is a real
  question about the model rather than an artefact of `ℚ` (where `q / 0 = 0`).
* `Number(x.toFixed(3))` is modelled as rounding to the nearest multiple of
  1/1000, ties upward (ECMA: "if there are two such n, pick the larger n").
* `Math.round` is `⌊x + 1/2⌋`, which is Mathlib's `round` on `ℚ`.
-/

/-- A JavaScript number: either a finite value (here an exact rational) or
one of the special values `Infinity`, `-Infinity`, `NaN`. -/
inductive JSVal where
  | num : ℚ → JSVal
  | posInf : JSVal
  | negInf : JSVal
  | nan : JSVal
deriving DecidableEq, Repr

/-- JavaScript division of two finite numbers: division by zero yields a
signed infinity, and `0 / 0` yields `NaN`. -/
def jsDiv (a b : ℚ) : JSVal :=
  if b = 0 then
    (if a = 0 then JSVal.nan else if 0 < a then JSVal.posInf else JSVal.negInf)
  else JSVal.num (a / b)

/-- `Math.min(1, x)`: `NaN` is contagious, `min(1, +∞) = 1`, `min(1, -∞) = -∞`. -/
def jsMinOne : JSVal → JSVal
  | JSVal.num q => JSVal.num (min 1 q)
  | JSVal.posInf => JSVal.num 1
  | JSVal.negInf => JSVal.negInf
  | JSVal.nan => JSVal.nan

/-- `1 - 0.6 * penalty` on a JavaScript number (`0.6 * ±∞ = ±∞`,
`1 - ±∞ = ∓∞`, `NaN` is contagious). -/
def jsPenaltyToFit : JSVal → JSVal
  | JSVal.num q => JSVal.num (1 - 0.6 * q)
  | JSVal.posInf => JSVal.negInf
  | JSVal.negInf => JSVal.posInf
  | JSVal.nan => JSVal.nan

/-- The finite value of a `JSVal` (0 for the non-finite cases; only applied
where the value is proved to be finite). -/
def JSVal.toQ : JSVal → ℚ
  | JSVal.num q => q
  | _ => 0

/-- An agronomic tolerance band `{min, max, idealMin, idealMax}`. -/
structure ThresholdRange where
  min : ℚ
  max : ℚ
  idealMin : ℚ
  idealMax : ℚ
deriving DecidableEq, Repr

/-- `{clayMax, sandMax}` texture limits of a crop. -/
structure SoilTexture where
  clayMax : ℚ
  sandMax : ℚ
deriving DecidableEq, Repr

/-- `rangeFit(val, r)` from `src/server.js` (lines 331-339):

    function rangeFit(val, r) {
      if (!isFinite(val) || !r) return 0.5;
      if (val < r.min || val > r.max) return 0;
      if (val >= r.idealMin && val <= r.idealMax) return 1;
      const dist = val < r.idealMin ? r.idealMin - val : val - r.idealMax;
      const span = val < r.idealMin ? r.idealMin - r.min : r.max - r.idealMax;
      const penalty = Math.min(1, dist / span);
      return 1 - 0.6 * penalty;
    }

`none` for `val` is a non-finite value, `none` for `r` an absent range. -/
def rangeFit (val : Option ℚ) (r : Option ThresholdRange) : JSVal :=
  match val, r with
  | some v, some rng =>
    if v < rng.min ∨ v > rng.max then JSVal.num 0
    else if rng.idealMin ≤ v ∧ v ≤ rng.idealMax then JSVal.num 1
    else
      let dist := if v < rng.idealMin then rng.idealMin - v else v - rng.idealMax
      let span := if v < rng.idealMin then rng.idealMin - rng.min else rng.max - rng.idealMax
      jsPenaltyToFit (jsMinOne (jsDiv dist span))
  | _, _ => JSVal.num 0.5

/-- `SIMULATION_CONSTANTS.WEIGHTS`. -/
structure Weights where
  temperature : ℚ
  rainfall : ℚ
  solar : ℚ
  soil : ℚ
deriving DecidableEq, Repr

/-- `SIMULATION_CONSTANTS.GROWTH`. -/
structure GrowthConstants where
  baseRate : ℚ
  envFactor : ℚ
  stressThreshold : ℚ
  decayFactor : ℚ
deriving DecidableEq, Repr

/-- `SIMULATION_CONSTANTS.SOIL`. -/
structure SoilConstants where
  socContributionFactor : ℚ
  maxSocBonus : ℚ
  texturePenalty : ℚ
deriving DecidableEq, Repr

def SIMULATION_CONSTANTS_WEIGHTS : Weights :=
  { temperature := 0.35, rainfall := 0.3, solar := 0.15, soil := 0.2 }

def SIMULATION_CONSTANTS_GROWTH : GrowthConstants :=
  { baseRate := 0.012, envFactor := 0.018, stressThreshold := 0.6, decayFactor := 0.04 }

def SIMULATION_CONSTANTS_SOIL : SoilConstants :=
  { socContributionFactor := 150, maxSocBonus := 0.2, texturePenalty := 0.2 }

/-- The `texturePenalty()` closure (lines 345-352): a fixed 0.2 penalty for
each of clay/sand that is finite and exceeds its crop maximum. -/
def texturePenalty (clay sand : Option ℚ) (tex : SoilTexture) : ℚ :=
  (match clay with
   | some c => if tex.clayMax < c then SIMULATION_CONSTANTS_SOIL.texturePenalty else 0
   | none => 0)
  +
  (match sand with
   | some s => if tex.sandMax < s then SIMULATION_CONSTANTS_SOIL.texturePenalty else 0
   | none => 0)

/-- `socBonus` (lines 355-360): `min(maxSocBonus, soc / socContributionFactor)`
for finite `soc`, else 0. -/
def socBonus (soc : Option ℚ) : ℚ :=
  match soc with
  | some s =>
      min SIMULATION_CONSTANTS_SOIL.maxSocBonus
        (s / SIMULATION_CONSTANTS_SOIL.socContributionFactor)
  | none => 0

/-- `soilQuality` (lines 361-364): `clamp(phFit - texturePenalty() + socBonus, 0, 1)`. -/
def soilQuality (ph clay sand soc : Option ℚ) (phRange : Option ThresholdRange)
    (tex : SoilTexture) : ℚ :=
  max 0 (min 1 ((rangeFit ph phRange).toQ - texturePenalty clay sand tex + socBonus soc))

/-- Climate observation as consumed by the engine; `none` marks a
non-finite ("unknown") field. -/
structure Climate where
  tempC : Option ℚ
  annualRainMm : Option ℚ
  solarMJm2day : Option ℚ
  rhPct : Option ℚ
  windMps : Option ℚ
deriving DecidableEq, Repr

/-- Soil observation as consumed by the engine; `none` marks a
null/non-finite field. -/
structure Soil where
  ph : Option ℚ
  soc : Option ℚ
  clay : Option ℚ
  silt : Option ℚ
  sand : Option ℚ
deriving DecidableEq, Repr

/-- Crop requirements after the structural validation of
`getCropDataFromGemini`: `temperatureC`, `soilPh` and `soilTexture` are
guaranteed present; the other two ranges may be absent. -/
structure CropRequirements where
  temperatureC : ThresholdRange
  annualRainfallMm : Option ThresholdRange
  solarMJm2day : Option ThresholdRange
  soilPh : ThresholdRange
  soilTexture : SoilTexture
deriving DecidableEq, Repr

/-- Parsed crop data before validation: any key may be missing. -/
structure RawCropRequirements where
  temperatureC : Option ThresholdRange
  annualRainfallMm : Option ThresholdRange
  solarMJm2day : Option ThresholdRange
  soilPh : Option ThresholdRange
  soilTexture : Option SoilTexture
deriving DecidableEq, Repr

/-- The structural check of `getCropDataFromGemini` (lines 288-290):

    if (!parsed.temperatureC || !parsed.soilPh || !parsed.soilTexture) {
      throw new Error("Invalid JSON structure received from Gemini.");
    }

Missing `annualRainfallMm` or `solarMJm2day` is tolerated. -/
def validateCropData (p : RawCropRequirements) : Option CropRequirements :=
  match p.temperatureC, p.soilPh, p.soilTexture with
  | some t, some sp, some st =>
      some { temperatureC := t, annualRainfallMm := p.annualRainfallMm,
             solarMJm2day := p.solarMJm2day, soilPh := sp, soilTexture := st }
  | _, _, _ => none

/-- The error condition signalled when crop requirements are structurally
incomplete (the handler's 404 "no data for this crop" path). -/
inductive SimError where
  | invalidCropRequirements : SimError
deriving DecidableEq, Repr

/-- One emitted timeline frame `{day, biomass, stage, alive}`;
`biomass` is the already-rounded `Number(biomass.toFixed(3))`. -/
structure TimelineFrame where
  day : ℕ
  biomass : ℚ
  stage : String
  alive : Bool
deriving DecidableEq, Repr

/-- The mutable loop state: current (un-rounded) biomass and aliveness. -/
structure SimState where
  biomass : ℚ
  alive : Bool
deriving DecidableEq, Repr

/-- `Number(x.toFixed(3))`: round to the nearest multiple of 1/1000,
ties toward the larger integer numerator. -/
def roundTo3 (q : ℚ) : ℚ := (⌊q * 1000 + 1 / 2⌋ : ℤ) / 1000

/-- The `stageMarkers` object (lines 368-373); `grainfill` is defined but
never used to select a stage (dead configuration, preserved). -/
def stageMarkers_germination : ℕ := 7
def stageMarkers_vegetative : ℕ := 45
def stageMarkers_flowering : ℕ := 80
def stageMarkers_grainfill : ℕ := 110

/-- The stage selection of lines 401-408, a pure function of the day. -/
def stageOf (d : ℕ) : String :=
  if d < stageMarkers_germination then "pre-germination"
  else if d < stageMarkers_vegetative then "germination"
  else if d < stageMarkers_flowering then "flowering"
  else "maturity"

/-- One iteration of the timeline loop body (lines 386-416) for day `d`:
grow/decay and clamp to [0,1], apply the rainfall shock and re-clamp to ≥ 0,
latch `alive` to `false` when `biomass === 0 && d > 20 && stress > 0.7`,
and emit the frame. `growthRate`, `decay` and `shock` are loop-invariant in
the source and are passed in as parameters. -/
def stepDay (growthRate decay shock stress : ℚ) (d : ℕ) (st : SimState) :
    SimState × TimelineFrame :=
  let b1 := max 0 (min 1 (st.biomass + growthRate - decay))
  let b2 := max 0 (b1 - shock)
  let alive := if b2 = 0 ∧ 20 < d ∧ 0.7 < stress then false else st.alive
  (⟨b2, alive⟩, ⟨d, roundTo3 b2, stageOf d, alive⟩)

/-- The one-day biomass transition: grow/decay, clamp to [0,1], subtract the
rainfall shock, re-clamp to ≥ 0. This is exactly the biomass component of
`stepDay`, named for reasoning about the recurrence. -/
def nextBiomass (growthRate decay shock b : ℚ) : ℚ :=
  max 0 (max 0 (min 1 (b + growthRate - decay)) - shock)

/-- The timeline loop: run `fuel` days starting at day number `d` from state
`st`, returning the emitted frames and the final state. -/
def simLoop (growthRate decay shock stress : ℚ) (st : SimState) (d : ℕ) :
    ℕ → List TimelineFrame × SimState
  | 0 => ([], st)
  | fuel + 1 =>
    let p := stepDay growthRate decay shock stress d st
    let rest := simLoop growthRate decay shock stress p.1 (d + 1) fuel
    (p.2 :: rest.1, rest.2)

/-- `days = 120` (line 367). -/
def simDays : ℕ := 120

/-- The four per-factor fit scores of the response. -/
structure FitScores where
  temperature : ℚ
  rainfall : ℚ
  solar : ℚ
  soil : ℚ
deriving DecidableEq, Repr

/-- The engine's output: score, status, timeline, fits and limits. -/
structure SimulationResult where
  score : ℤ
  status : String
  timeline : List TimelineFrame
  fits : FitScores
  limits : List String
deriving DecidableEq, Repr

/-- Default frame used only to read the last element of the (provably
nonempty) timeline, mirroring `timeline[days - 1]`. -/
def defaultFrame : TimelineFrame := ⟨0, 0, "", true⟩

/-- `tFit = rangeFit(climR.tempC, reqs.temperatureC)` (line 341). -/
def tFitOf (clim : Climate) (reqs : CropRequirements) : ℚ :=
  (rangeFit clim.tempC (some reqs.temperatureC)).toQ

/-- `rFit = rangeFit(climR.annualRainMm, reqs.annualRainfallMm)` (line 342). -/
def rFitOf (clim : Climate) (reqs : CropRequirements) : ℚ :=
  (rangeFit clim.annualRainMm reqs.annualRainfallMm).toQ

/-- `sFit = rangeFit(climR.solarMJm2day, reqs.solarMJm2day)` (line 343). -/
def sFitOf (clim : Climate) (reqs : CropRequirements) : ℚ :=
  (rangeFit clim.solarMJm2day reqs.solarMJm2day).toQ

/-- `phFit = rangeFit(ph, reqs.soilPh)` (line 354). -/
def phFitOf (soil : Soil) (reqs : CropRequirements) : ℚ :=
  (rangeFit soil.ph (some reqs.soilPh)).toQ

/-- The handler's `soilQuality` const, applied to the request's soil data. -/
def soilQualityOf (soil : Soil) (reqs : CropRequirements) : ℚ :=
  soilQuality soil.ph soil.clay soil.sand soil.soc (some reqs.soilPh) reqs.soilTexture

/-- `envScore` (lines 375-380): the weighted sum of the four fit scores. -/
def envScoreOf (clim : Climate) (soil : Soil) (reqs : CropRequirements) : ℚ :=
  tFitOf clim reqs * SIMULATION_CONSTANTS_WEIGHTS.temperature +
  rFitOf clim reqs * SIMULATION_CONSTANTS_WEIGHTS.rainfall +
  sFitOf clim reqs * SIMULATION_CONSTANTS_WEIGHTS.solar +
  soilQualityOf soil reqs * SIMULATION_CONSTANTS_WEIGHTS.soil

/-- `stress = 1 - envScore` (line 381). -/
def stressOf (clim : Climate) (soil : Soil) (reqs : CropRequirements) : ℚ :=
  1 - envScoreOf clim soil reqs

/-- `growthRate = g.baseRate + g.envFactor * envScore` (line 388). -/
def growthRateOf (clim : Climate) (soil : Soil) (reqs : CropRequirements) : ℚ :=
  SIMULATION_CONSTANTS_GROWTH.baseRate +
    SIMULATION_CONSTANTS_GROWTH.envFactor * envScoreOf clim soil reqs

/-- `decay` (lines 389-392): `(stress - stressThreshold) * decayFactor` above
the stress threshold, else 0. -/
def decayOf (clim : Climate) (soil : Soil) (reqs : CropRequirements) : ℚ :=
  if stressOf clim soil reqs > SIMULATION_CONSTANTS_GROWTH.stressThreshold then
    (stressOf clim soil reqs - SIMULATION_CONSTANTS_GROWTH.stressThreshold) *
      SIMULATION_CONSTANTS_GROWTH.decayFactor
  else 0

/-- `minRain = reqs.annualRainfallMm?.min ?? 400` (line 395). -/
def minRainOf (reqs : CropRequirements) : ℚ :=
  match reqs.annualRainfallMm with
  | some rr => rr.min
  | none => 400

/-- `shock = climR.annualRainMm < minRain ? 0.003 : 0` (line 396); a
non-finite rainfall compares false, hence no shock. -/
def shockOf (clim : Climate) (reqs : CropRequirements) : ℚ :=
  match clim.annualRainMm with
  | some rain => if rain < minRainOf reqs then (0.003 : ℚ) else 0
  | none => 0

/-- The full timeline loop run of lines 383-416: frames plus final state. -/
def simRun (clim : Climate) (soil : Soil) (reqs : CropRequirements) :
    List TimelineFrame × SimState :=
  simLoop (growthRateOf clim soil reqs) (decayOf clim soil reqs)
    (shockOf clim reqs) (stressOf clim soil reqs) ⟨0, true⟩ 1 simDays

/-- `finalScore = Math.round(envScore * 100)` (line 418). -/
def finalScoreOf (clim : Climate) (soil : Soil) (reqs : CropRequirements) : ℤ :=
  round (envScoreOf clim soil reqs * 100)

/-- `status` (lines 419-426): `"fail"` when the loop's final `alive` is false
and the last frame's (rounded) biomass is below 0.2, otherwise by score. -/
def statusOf (clim : Climate) (soil : Soil) (reqs : CropRequirements) : String :=
  if (simRun clim soil reqs).2.alive = false ∧
      (((simRun clim soil reqs).1.getLastD defaultFrame).biomass < 0.2) then "fail"
  else if finalScoreOf clim soil reqs < 60 then "struggle"
  else if finalScoreOf clim soil reqs < 80 then "good"
  else "great"

/-- `limits` (lines 428-436): the conditionally pushed advisory strings. -/
def limitsOf (clim : Climate) (soil : Soil) (reqs : CropRequirements) : List String :=
  (if tFitOf clim reqs < 0.4 then ["Temperature outside comfortable range"] else []) ++
  (if rFitOf clim reqs < 0.4 then ["Insufficient or excessive rainfall"] else []) ++
  (if sFitOf clim reqs < 0.4 then ["Suboptimal solar radiation"] else []) ++
  (if phFitOf soil reqs < 0.5 then ["Soil pH unsuitable"] else []) ++
  (match soil.clay with
   | some c => if reqs.soilTexture.clayMax < c then ["Soil too clayey (poor drainage)"] else []
   | none => []) ++
  (match soil.sand with
   | some s => if reqs.soilTexture.sandMax < s then ["Soil too sandy (low water retention)"] else []
   | none => [])

/-- The simulation core of the `/api/simulate` handler (lines 325-455):
fit scores, soil quality, environmental score, the 120-day timeline loop,
final score, status and limits. -/
def evaluate (clim : Climate) (soil : Soil) (reqs : CropRequirements) :
    SimulationResult :=
  { score := finalScoreOf clim soil reqs,
    status := statusOf clim soil reqs,
    timeline := (simRun clim soil reqs).1,
    fits := { temperature := tFitOf clim reqs, rainfall := rFitOf clim reqs,
              solar := sFitOf clim reqs, soil := soilQualityOf soil reqs },
    limits := limitsOf clim soil reqs }

/-- The `/api/simulate` handler's control flow around the engine: if the
fetched crop data fails structural validation the request fails fast with
`invalidCropRequirements` (the 404 path) and no simulation runs; otherwise
the engine runs. -/
def simulateHandler (raw : RawCropRequirements) (clim : Climate) (soil : Soil) :
    Except SimError SimulationResult :=
  match validateCropData raw with
  | none => Except.error SimError.invalidCropRequirements
  | some reqs => Except.ok (evaluate clim soil reqs)

/-- A concrete worst-fit input: every fit score is 0, so `envScore = 0`. -/
def climC2 : Climate :=
  { tempC := some 100, annualRainMm := some 10000, solarMJm2day := some 100,
    rhPct := none, windMps := none }

/-- Soil observation for the worst-fit scenario: pH far outside the crop's
band, everything else unknown. -/
def soilC2 : Soil :=
  { ph := some 100, soc := none, clay := none, silt := none, sand := none }

/-- Crop requirements for the worst-fit scenario. -/
def reqsC2 : CropRequirements :=
  { temperatureC := ⟨10, 20, 12, 18⟩,
    annualRainfallMm := some ⟨400, 800, 500, 700⟩,
    solarMJm2day := some ⟨10, 30, 15, 25⟩,
    soilPh := ⟨5, 8, 6, 7⟩,
    soilTexture := ⟨40, 60⟩ }

/-- Parsed crop data missing `soilTexture` (structurally incomplete). -/
def rawMissingTexture : RawCropRequirements :=
  { temperatureC := some ⟨10, 20, 12, 18⟩,
    annualRainfallMm := none,
    solarMJm2day := none,
    soilPh := some ⟨5, 8, 6, 7⟩,
    soilTexture := none }

/-- Structurally complete parsed crop data whose two optional ranges are
absent (tolerated by the validation). -/
def rawComplete : RawCropRequirements :=
  { temperatureC := some ⟨10, 20, 12, 18⟩,
    annualRainfallMm := none,
    solarMJm2day := none,
    soilPh := some ⟨5, 8, 6, 7⟩,
    soilTexture := some ⟨40, 60⟩ }

/-! ## Properties of the Fit Evaluator -/

/-- On the suboptimal branch of `rangeFit` (value not in the ideal band) the
distance to the nearer ideal bound is strictly positive. -/
lemma rangeFit_dist_pos (v : ℚ) (r : ThresholdRange)
    (hni : ¬(r.idealMin ≤ v ∧ v ≤ r.idealMax)) :
    0 < (if v < r.idealMin then r.idealMin - v else v - r.idealMax) := by
  rcases lt_or_ge v r.idealMin with h | h
  · rw [if_pos h]
    linarith
  · rw [if_neg (not_lt.mpr h)]
    push_neg at hni
    have := hni h
    linarith

/-- Hard exclusion: a value strictly outside `[min, max]` scores 0. -/
lemma rangeFit_outside (v : ℚ) (r : ThresholdRange)
    (h : v < r.min ∨ r.max < v) :
    rangeFit (some v) (some r) = JSVal.num 0 := by
  simp only [rangeFit]
  rw [if_pos h]

/-- Optimal: a value inside the ideal band of a well-ordered range scores 1. -/
lemma rangeFit_ideal (v : ℚ) (r : ThresholdRange)
    (h1 : r.min ≤ r.idealMin) (h3 : r.idealMax ≤ r.max)
    (h : r.idealMin ≤ v ∧ v ≤ r.idealMax) :
    rangeFit (some v) (some r) = JSVal.num 1 := by
  simp only [rangeFit]
  rw [if_neg (by push_neg; constructor <;> linarith [h.1, h.2]), if_pos h]

/-- On the reachable suboptimal branch the relevant span is strictly
positive (the value itself separates the two bounds of that side). -/
lemma rangeFit_span_pos (v : ℚ) (r : ThresholdRange)
    (hmin : r.min ≤ v) (hmax : v ≤ r.max)
    (hni : ¬(r.idealMin ≤ v ∧ v ≤ r.idealMax)) :
    0 < (if v < r.idealMin then r.idealMin - r.min else r.max - r.idealMax) := by
  rcases lt_or_ge v r.idealMin with h | h
  · rw [if_pos h]
    linarith
  · rw [if_neg (not_lt.mpr h)]
    push_neg at hni
    have := hni h
    linarith

/-- Tolerable-but-suboptimal: inside `[min, max]` but outside the ideal band
the score is `1 - 0.6 * min(1, dist / span)`. -/
lemma rangeFit_band (v : ℚ) (r : ThresholdRange)
    (hmin : r.min ≤ v) (hmax : v ≤ r.max)
    (hni : ¬(r.idealMin ≤ v ∧ v ≤ r.idealMax)) :
    rangeFit (some v) (some r) = JSVal.num (1 - 0.6 * min 1
      ((if v < r.idealMin then r.idealMin - v else v - r.idealMax) /
       (if v < r.idealMin then r.idealMin - r.min else r.max - r.idealMax))) := by
  have hspan := rangeFit_span_pos v r hmin hmax hni
  simp only [rangeFit]
  rw [if_neg (by push_neg; exact ⟨hmin, hmax⟩), if_neg hni]
  show jsPenaltyToFit (jsMinOne (jsDiv _ _)) = _
  rw [jsDiv, if_neg hspan.ne']
  rfl

/-- C1: for every finite value and every ThresholdRange with
`min ≤ idealMin ≤ idealMax ≤ max`, the Fit Evaluator returns 0 when the
value is outside `[min, max]`, 1 when it is inside `[idealMin, idealMax]`,
and otherwise `1 - 0.6 * min(1, dist / span)`, where `dist` is the distance
to the nearer ideal bound and `span` the width of that side's tolerable
band (`idealMin - min` below the ideal band, `max - idealMax` above it). -/
theorem rangeFit_piecewise (v : ℚ) (r : ThresholdRange)
    (h1 : r.min ≤ r.idealMin) (h2 : r.idealMin ≤ r.idealMax) (h3 : r.idealMax ≤ r.max) :
    ((v < r.min ∨ r.max < v) → rangeFit (some v) (some r) = JSVal.num 0) ∧
    ((r.idealMin ≤ v ∧ v ≤ r.idealMax) → rangeFit (some v) (some r) = JSVal.num 1) ∧
    (r.min ≤ v → v ≤ r.max → ¬(r.idealMin ≤ v ∧ v ≤ r.idealMax) →
      rangeFit (some v) (some r) = JSVal.num (1 - 0.6 * min 1
        ((if v < r.idealMin then r.idealMin - v else v - r.idealMax) /
         (if v < r.idealMin then r.idealMin - r.min else r.max - r.idealMax)))) :=
  ⟨rangeFit_outside v r, rangeFit_ideal v r h1 h3,
   fun hmin hmax hni => rangeFit_band v r hmin hmax hni⟩

/-- C1 witness: a concrete suboptimal value; `rangeFit 11` on the range
`10..20` with ideal band `12..18` is `1 - 0.6 * min(1, 1/2) = 0.7`. -/
theorem rangeFit_piecewise_witness :
    rangeFit (some 11) (some ⟨10, 20, 12, 18⟩) = JSVal.num (1 - 0.6 * min 1
      ((if (11 : ℚ) < 12 then 12 - 11 else 11 - 18) /
       (if (11 : ℚ) < 12 then 12 - 10 else 20 - 18))) :=
  (rangeFit_piecewise 11 ⟨10, 20, 12, 18⟩ (by norm_num) (by norm_num) (by norm_num)).2.2
    (by norm_num) (by norm_num) (by norm_num)

/-- C10: for every value (finite or not) and every well-ordered
ThresholdRange, the Fit Evaluator's result is a finite number that is
either 0 (hard exclusion), 0.5 (unknown input), or lies in `[0.4, 1]`;
no non-zero score below 0.4 is possible. -/
theorem rangeFit_no_low_scores (v : Option ℚ) (r : ThresholdRange)
    (h1 : r.min ≤ r.idealMin) (h2 : r.idealMin ≤ r.idealMax) (h3 : r.idealMax ≤ r.max) :
    ∃ q, rangeFit v (some r) = JSVal.num q ∧
      (q = 0 ∨ q = 0.5 ∨ (0.4 ≤ q ∧ q ≤ 1)) := by
  match v with
  | none => exact ⟨0.5, rfl, Or.inr (Or.inl rfl)⟩
  | some v =>
    by_cases hout : v < r.min ∨ r.max < v
    · exact ⟨0, rangeFit_outside v r hout, Or.inl rfl⟩
    · push_neg at hout
      by_cases hideal : r.idealMin ≤ v ∧ v ≤ r.idealMax
      · exact ⟨1, rangeFit_ideal v r h1 h3 hideal, Or.inr (Or.inr ⟨by norm_num, le_refl 1⟩)⟩
      · refine ⟨_, rangeFit_band v r hout.1 hout.2 hideal, Or.inr (Or.inr ⟨?_, ?_⟩)⟩
        · have hpen : min 1 ((if v < r.idealMin then r.idealMin - v else v - r.idealMax) /
              (if v < r.idealMin then r.idealMin - r.min else r.max - r.idealMax)) ≤ 1 :=
            min_le_left _ _
          linarith
        · have hd := rangeFit_dist_pos v r hideal
          have hs := rangeFit_span_pos v r hout.1 hout.2 hideal
          have hpen : 0 ≤ min 1 ((if v < r.idealMin then r.idealMin - v else v - r.idealMax) /
              (if v < r.idealMin then r.idealMin - r.min else r.max - r.idealMax)) :=
            le_min (by norm_num) (le_of_lt (div_pos hd hs))
          linarith

/-- C10 witness: the concrete suboptimal value 11 on the range 10..20 with
ideal band 12..18 yields a finite score that is 0, 0.5, or in [0.4, 1]. -/
theorem rangeFit_no_low_scores_witness :
    ∃ q, rangeFit (some 11) (some ⟨10, 20, 12, 18⟩) = JSVal.num q ∧
      (q = 0 ∨ q = 0.5 ∨ (0.4 ≤ q ∧ q ≤ 1)) :=
  rangeFit_no_low_scores (some 11) ⟨10, 20, 12, 18⟩ (by norm_num) (by norm_num) (by norm_num)

/-- C6: for a non-finite value or an absent range the Fit Evaluator returns
exactly 0.5 as an ordinary finite result; in particular an unknown (NaN)
soil pH with everything else intact gives `phFit = 0.5`, not an error. -/
theorem rangeFit_unknown_neutral (v : Option ℚ) (r : Option ThresholdRange)
    (h : v = none ∨ r = none) :
    rangeFit v r = JSVal.num 0.5 ∧
    (∀ (soil : Soil) (reqs : CropRequirements), soil.ph = none →
      phFitOf soil reqs = 0.5) := by
  constructor
  · rcases h with h | h
    · subst h
      cases r <;> rfl
    · subst h
      cases v <;> rfl
  · intro soil reqs hph
    show (rangeFit soil.ph (some reqs.soilPh)).toQ = 0.5
    rw [hph]
    rfl

/-- C6 witness: an unknown (NaN) pH against a concrete pH range scores
exactly 0.5, and a soil observation with unknown pH but all other fields
finite has `phFit = 0.5`. -/
theorem rangeFit_unknown_neutral_witness :
    rangeFit none (some ⟨5, 8, 6, 7⟩) = JSVal.num 0.5 ∧
    phFitOf ⟨none, some 15, some 25, some 35, some 40⟩ reqsC2 = 0.5 := by
  have h := rangeFit_unknown_neutral none (some ⟨5, 8, 6, 7⟩) (Or.inl rfl)
  exact ⟨h.1, h.2 ⟨none, some 15, some 25, some 35, some 40⟩ reqsC2 rfl⟩

/-- C5 counterexample: take `value = 0` and the range
`{min := 5, max := 10, idealMin := 5, idealMax := 7}`. Then
`value < idealMin`, the relevant span `idealMin - min` is 0 and the
distance `idealMin - value = 5` is positive, so the claim predicts the
score `1 - 0.6 * 1 = 0.4`; the code instead returns 0, because
`value < idealMin = min` puts the value outside `[min, max]` and the
hard-exclusion branch fires before any division happens. -/
theorem rangeFit_zero_span_counterexample :
    (0 : ℚ) < 5 ∧ ((5 : ℚ) - 5 = 0) ∧
    rangeFit (some 0) (some ⟨5, 10, 5, 7⟩) = JSVal.num 0 ∧
    JSVal.num (0 : ℚ) ≠ JSVal.num (0.4 : ℚ) := by
  refine ⟨by norm_num, by norm_num, ?_, ?_⟩
  · exact rangeFit_outside 0 ⟨5, 10, 5, 7⟩ (Or.inl (by norm_num))
  · intro h
    have := JSVal.num.inj h
    norm_num at this

/-- C5 amended: for every finite value and every range whose relevant span
is 0, the Fit Evaluator returns a well-defined finite number and no NaN
propagates — but the returned score is 0, not 0.4: a zero span collapses
that side of the tolerable band (`idealMin = min`, resp. `max = idealMax`),
so such a value lies strictly outside `[min, max]`, the hard-exclusion
branch returns 0, and the division by the zero span is never executed. -/
theorem rangeFit_zero_span_returns_zero (v : ℚ) (r : ThresholdRange)
    (h : (v < r.idealMin ∧ r.idealMin - r.min = 0) ∨
         (r.idealMax < v ∧ r.max - r.idealMax = 0)) :
    rangeFit (some v) (some r) = JSVal.num 0 := by
  rcases h with ⟨hv, hs⟩ | ⟨hv, hs⟩
  · have hmin : r.idealMin = r.min := by linarith
    exact rangeFit_outside v r (Or.inl (by linarith))
  · have hmax : r.max = r.idealMax := by linarith
    exact rangeFit_outside v r (Or.inr (by linarith))

/-- C5 amended witness: the counterexample input, settled by the amended
theorem: value 0 against `{min 5, max 10, idealMin 5, idealMax 7}` (lower
span 0) scores 0. -/
theorem rangeFit_zero_span_returns_zero_witness :
    rangeFit (some 0) (some ⟨5, 10, 5, 7⟩) = JSVal.num 0 :=
  rangeFit_zero_span_returns_zero 0 ⟨5, 10, 5, 7⟩ (Or.inl ⟨by norm_num, by norm_num⟩)

/-! ## Generic list access helpers -/

/-- `getD` at an in-range index is a member of the list. -/
lemma getD_mem_of_lt {α : Type} (l : List α) (d : α) (i : ℕ) (h : i < l.length) :
    l.getD i d ∈ l := by
  induction l generalizing i with
  | nil => exact absurd h (Nat.not_lt_zero i)
  | cons a t ih =>
    match i with
    | 0 => exact List.mem_cons_self a t
    | i + 1 =>
      rw [List.getD_cons_succ]
      exact List.mem_cons_of_mem a (ih i (by simpa using h))

/-- `getD` at an in-range index agrees with `get`. -/
lemma getD_eq_get {α : Type} (l : List α) (d : α) (i : ℕ) (h : i < l.length) :
    l.getD i d = l.get ⟨i, h⟩ := by
  induction l generalizing i with
  | nil => exact absurd h (Nat.not_lt_zero i)
  | cons a t ih =>
    match i with
    | 0 => rfl
    | i + 1 =>
      rw [List.getD_cons_succ]
      exact ih i (by simpa using h)

/-- `getD` at an in-range index does not depend on the default. -/
lemma getD_indep {α : Type} (l : List α) (d1 d2 : α) (i : ℕ) (h : i < l.length) :
    l.getD i d1 = l.getD i d2 := by
  rw [getD_eq_get l d1 i h, getD_eq_get l d2 i h]

/-- On a nonempty list, `getLastD` is `getD` at the last index. -/
lemma getLastD_eq_getD {α : Type} (l : List α) (d : α) (h : l ≠ []) :
    l.getLastD d = l.getD (l.length - 1) d := by
  induction l generalizing d with
  | nil => exact absurd rfl h
  | cons a t ih =>
    match t with
    | [] => rfl
    | b :: t2 =>
      rw [List.getLastD_cons, ih a (by simp)]
      have h1 : (a :: b :: t2).length - 1 = t2.length + 1 := by simp
      have h2 : (b :: t2).length - 1 = t2.length := by simp
      rw [h1, h2, List.getD_cons_succ]
      exact getD_indep _ a d _ (by simp)

/-- On a nonempty list, `getLastD` does not depend on the default. -/
lemma getLastD_indep {α : Type} (l : List α) (d1 d2 : α) (h : l ≠ []) :
    l.getLastD d1 = l.getLastD d2 := by
  have hpos : 0 < l.length := List.length_pos.mpr h
  rw [getLastD_eq_getD l d1 h, getLastD_eq_getD l d2 h,
    getD_eq_get l d1 _ (by omega), getD_eq_get l d2 _ (by omega)]

/-- A property holding for all members of a nonempty list holds for its
`getLastD`. -/
lemma getLastD_prop {α : Type} (P : α → Prop) (l : List α) (d : α) (h : l ≠ [])
    (hall : ∀ x ∈ l, P x) : P (l.getLastD d) := by
  have hpos : 0 < l.length := List.length_pos.mpr h
  rw [getLastD_eq_getD l d h]
  exact hall _ (getD_mem_of_lt l d _ (by omega))

/-! ## Single-step facts about the loop body -/

/-- The emitted frame's day is the loop day. -/
lemma stepDay_frame_day (gr dc sh strss : ℚ) (d : ℕ) (st : SimState) :
    (stepDay gr dc sh strss d st).2.day = d := rfl

/-- The emitted frame's `alive` equals the updated state's `alive`. -/
lemma stepDay_frame_alive (gr dc sh strss : ℚ) (d : ℕ) (st : SimState) :
    (stepDay gr dc sh strss d st).2.alive = (stepDay gr dc sh strss d st).1.alive := rfl

/-- The updated state's biomass is `nextBiomass` of the old biomass. -/
lemma stepDay_state_biomass (gr dc sh strss : ℚ) (d : ℕ) (st : SimState) :
    (stepDay gr dc sh strss d st).1.biomass = nextBiomass gr dc sh st.biomass := rfl

/-- The emitted frame's biomass is the rounded updated biomass. -/
lemma stepDay_frame_biomass (gr dc sh strss : ℚ) (d : ℕ) (st : SimState) :
    (stepDay gr dc sh strss d st).2.biomass = roundTo3 (nextBiomass gr dc sh st.biomass) := rfl

/-- The updated `alive`: latched to `false` exactly when the new biomass is
0, the day is past 20, and stress exceeds 0.7; otherwise unchanged. -/
lemma stepDay_state_alive (gr dc sh strss : ℚ) (d : ℕ) (st : SimState) :
    (stepDay gr dc sh strss d st).1.alive =
      if nextBiomass gr dc sh st.biomass = 0 ∧ 20 < d ∧ 0.7 < strss then false
      else st.alive := rfl

/-- The full updated state from a zero-biomass state. -/
lemma stepDay_state_eq (gr dc sh strss : ℚ) (d : ℕ) (a : Bool) :
    (stepDay gr dc sh strss d ⟨0, a⟩).1 =
      ⟨nextBiomass gr dc sh 0,
        if nextBiomass gr dc sh 0 = 0 ∧ 20 < d ∧ 0.7 < strss then false else a⟩ := rfl

/-! ## Bounds on the biomass recurrence -/

lemma nextBiomass_nonneg (gr dc sh b : ℚ) : 0 ≤ nextBiomass gr dc sh b :=
  le_max_left 0 _

lemma nextBiomass_le_one (gr dc sh b : ℚ) (hsh : 0 ≤ sh) :
    nextBiomass gr dc sh b ≤ 1 := by
  unfold nextBiomass
  have h1 : max 0 (min 1 (b + gr - dc)) ≤ 1 := max_le (by norm_num) (min_le_left _ _)
  apply max_le (by norm_num)
  linarith

lemma nextBiomass_mono (gr dc sh : ℚ) {b1 b2 : ℚ} (h : b1 ≤ b2) :
    nextBiomass gr dc sh b1 ≤ nextBiomass gr dc sh b2 := by
  unfold nextBiomass
  have h1 : min 1 (b1 + gr - dc) ≤ min 1 (b2 + gr - dc) :=
    min_le_min le_rfl (by linarith)
  have h2 : max 0 (min 1 (b1 + gr - dc)) ≤ max 0 (min 1 (b2 + gr - dc)) :=
    max_le_max le_rfl h1
  exact max_le_max le_rfl (by linarith)

lemma roundTo3_nonneg {q : ℚ} (h : 0 ≤ q) : 0 ≤ roundTo3 q := by
  unfold roundTo3
  apply div_nonneg _ (by norm_num)
  have hfl : (0 : ℤ) ≤ ⌊q * 1000 + 1 / 2⌋ := by
    apply Int.le_floor.mpr
    push_cast
    linarith
  exact_mod_cast hfl

lemma roundTo3_le_one {q : ℚ} (h : q ≤ 1) : roundTo3 q ≤ 1 := by
  unfold roundTo3
  rw [div_le_one (by norm_num)]
  have hfl : ⌊q * 1000 + 1 / 2⌋ < 1001 := by
    apply Int.floor_lt.mpr
    push_cast
    linarith
  have : ⌊q * 1000 + 1 / 2⌋ ≤ 1000 := by omega
  exact_mod_cast this

lemma roundTo3_zero : roundTo3 0 = 0 := by
  unfold roundTo3
  norm_num

/-! ## Structural facts about the timeline loop -/

/-- The loop emits exactly one frame per remaining day. -/
lemma simLoop_length (gr dc sh strss : ℚ) (fuel : ℕ) :
    ∀ (st : SimState) (d : ℕ), (simLoop gr dc sh strss st d fuel).1.length = fuel := by
  induction fuel with
  | zero => intro st d; rfl
  | succ n ih =>
    intro st d
    simp only [simLoop, List.length_cons, ih]

/-- Frame `i` of a loop started at day `d` carries day number `d + i`. -/
lemma simLoop_day (gr dc sh strss : ℚ) (fuel : ℕ) :
    ∀ (st : SimState) (d i : ℕ), i < fuel →
      ((simLoop gr dc sh strss st d fuel).1.getD i defaultFrame).day = d + i := by
  induction fuel with
  | zero => intro st d i h; exact absurd h (Nat.not_lt_zero i)
  | succ n ih =>
    intro st d i h
    match i with
    | 0 =>
      simp only [simLoop, List.getD_cons_zero, stepDay_frame_day]
      omega
    | i + 1 =>
      simp only [simLoop, List.getD_cons_succ]
      rw [ih _ (d + 1) i (by omega)]
      omega

/-- Every emitted frame's (rounded) biomass lies in `[0, 1]`, provided the
rainfall shock is non-negative. -/
lemma simLoop_biomass_bounds (gr dc sh strss : ℚ) (hsh : 0 ≤ sh) (fuel : ℕ) :
    ∀ (st : SimState) (d : ℕ), ∀ fr ∈ (simLoop gr dc sh strss st d fuel).1,
      0 ≤ fr.biomass ∧ fr.biomass ≤ 1 := by
  induction fuel with
  | zero =>
    intro st d fr hfr
    simp only [simLoop, List.not_mem_nil] at hfr
  | succ n ih =>
    intro st d fr hfr
    simp only [simLoop, List.mem_cons] at hfr
    rcases hfr with rfl | hfr
    · rw [stepDay_frame_biomass]
      exact ⟨roundTo3_nonneg (nextBiomass_nonneg gr dc sh st.biomass),
        roundTo3_le_one (nextBiomass_le_one gr dc sh st.biomass hsh)⟩
    · exact ih _ _ fr hfr

/-- A dead state stays dead: every later frame and the final state are dead. -/
lemma simLoop_dead (gr dc sh strss : ℚ) (fuel : ℕ) :
    ∀ (st : SimState) (d : ℕ), st.alive = false →
      (∀ fr ∈ (simLoop gr dc sh strss st d fuel).1, fr.alive = false) ∧
      (simLoop gr dc sh strss st d fuel).2.alive = false := by
  induction fuel with
  | zero =>
    intro st d h
    refine ⟨fun fr hfr => ?_, h⟩
    simp only [simLoop, List.not_mem_nil] at hfr
  | succ n ih =>
    intro st d h
    have hstep : (stepDay gr dc sh strss d st).1.alive = false := by
      rw [stepDay_state_alive, h, ite_self]
    obtain ⟨ihf, ihs⟩ := ih (stepDay gr dc sh strss d st).1 (d + 1) hstep
    constructor
    · intro fr hfr
      simp only [simLoop, List.mem_cons] at hfr
      rcases hfr with rfl | hfr
      · rw [stepDay_frame_alive]
        exact hstep
      · exact ihf fr hfr
    · simpa only [simLoop] using ihs

/-- Aliveness of the emitted frames is antitone in the day index: once a
frame is dead, all later frames are dead. -/
lemma simLoop_alive_antitone (gr dc sh strss : ℚ) (fuel : ℕ) :
    ∀ (st : SimState) (d i j : ℕ), i < fuel → j < fuel → i ≤ j →
      ((simLoop gr dc sh strss st d fuel).1.getD i defaultFrame).alive = false →
      ((simLoop gr dc sh strss st d fuel).1.getD j defaultFrame).alive = false := by
  induction fuel with
  | zero => intro st d i j hi; exact absurd hi (Nat.not_lt_zero i)
  | succ n ih =>
    intro st d i j hi hj hij hdead
    match i, j with
    | 0, 0 => exact hdead
    | 0, j + 1 =>
      simp only [simLoop, List.getD_cons_zero, stepDay_frame_alive] at hdead
      simp only [simLoop, List.getD_cons_succ]
      apply (simLoop_dead gr dc sh strss n _ (d + 1) hdead).1
      apply getD_mem_of_lt
      rw [simLoop_length]
      omega
    | i + 1, j + 1 =>
      simp only [simLoop, List.getD_cons_succ] at hdead ⊢
      exact ih _ (d + 1) i j (by omega) (by omega) (by omega) hdead

/-- The last emitted frame's `alive` equals the final state's `alive`. -/
lemma simLoop_final_alive (gr dc sh strss : ℚ) (fuel : ℕ) :
    ∀ (st : SimState) (d : ℕ), 0 < fuel →
      ((simLoop gr dc sh strss st d fuel).1.getLastD defaultFrame).alive =
      (simLoop gr dc sh strss st d fuel).2.alive := by
  induction fuel with
  | zero => intro st d h; exact absurd h (Nat.lt_irrefl 0)
  | succ n ih =>
    intro st d _
    match n with
    | 0 =>
      simp only [simLoop, List.getLastD_cons, List.getLastD_nil, stepDay_frame_alive]
    | m + 1 =>
      have hne : (simLoop gr dc sh strss (stepDay gr dc sh strss d st).1 (d + 1) (m + 1)).1 ≠ [] := by
        intro hnil
        have hl := simLoop_length gr dc sh strss (m + 1) (stepDay gr dc sh strss d st).1 (d + 1)
        rw [hnil] at hl
        simp at hl
      show (((stepDay gr dc sh strss d st).2 ::
          (simLoop gr dc sh strss (stepDay gr dc sh strss d st).1 (d + 1) (m + 1)).1).getLastD
            defaultFrame).alive =
        (simLoop gr dc sh strss (stepDay gr dc sh strss d st).1 (d + 1) (m + 1)).2.alive
      rw [List.getLastD_cons, getLastD_indep _ _ defaultFrame hne]
      exact ih _ (d + 1) (Nat.succ_pos m)

/-- If a single day's growth from zero biomass is strictly positive, the
plant can never die: biomass after any step is positive, so the mortality
condition never fires. -/
lemma simLoop_alive_of_pos (gr dc sh strss : ℚ) (hpos : 0 < nextBiomass gr dc sh 0)
    (fuel : ℕ) :
    ∀ (st : SimState) (d : ℕ), st.alive = true → 0 ≤ st.biomass →
      (simLoop gr dc sh strss st d fuel).2.alive = true := by
  induction fuel with
  | zero => intro st d h _; exact h
  | succ n ih =>
    intro st d h hb
    have hbm : 0 < nextBiomass gr dc sh st.biomass :=
      lt_of_lt_of_le hpos (nextBiomass_mono gr dc sh hb)
    have halive : (stepDay gr dc sh strss d st).1.alive = true := by
      rw [stepDay_state_alive, if_neg (fun hc => absurd hc.1 (ne_of_gt hbm)), h]
    have hbio : 0 ≤ (stepDay gr dc sh strss d st).1.biomass := by
      rw [stepDay_state_biomass]
      exact nextBiomass_nonneg gr dc sh st.biomass
    simp only [simLoop]
    exact ih _ (d + 1) halive hbio

/-- If zero biomass is a fixed point of the daily recurrence, a loop started
at zero biomass emits only zero-biomass frames. -/
lemma simLoop_zero_biomass (gr dc sh strss : ℚ) (hz : nextBiomass gr dc sh 0 = 0)
    (fuel : ℕ) :
    ∀ (d : ℕ) (a : Bool), ∀ fr ∈ (simLoop gr dc sh strss ⟨0, a⟩ d fuel).1,
      fr.biomass = 0 := by
  induction fuel with
  | zero =>
    intro d a fr hfr
    simp only [simLoop, List.not_mem_nil] at hfr
  | succ n ih =>
    intro d a fr hfr
    simp only [simLoop, List.mem_cons] at hfr
    rcases hfr with rfl | hfr
    · rw [stepDay_frame_biomass]
      show roundTo3 (nextBiomass gr dc sh (0 : ℚ)) = 0
      rw [hz, roundTo3_zero]
    · rw [stepDay_state_eq, hz] at hfr
      exact ih (d + 1) _ fr hfr

/-- Under a zero-biomass fixed point and stress above 0.7, the loop started
alive at zero biomass is the pure latch: frame `i` of a loop started at day
`d` with aliveness `a` is alive iff `a` holds and day `d + i` has not passed
20; and every frame has zero biomass. -/
lemma simLoop_latch (gr dc sh strss : ℚ) (hz : nextBiomass gr dc sh 0 = 0)
    (hstress : (0.7 : ℚ) < strss) (fuel : ℕ) :
    ∀ (d i : ℕ) (a : Bool), i < fuel →
      ((simLoop gr dc sh strss ⟨0, a⟩ d fuel).1.getD i defaultFrame).alive =
        (a && decide (d + i ≤ 20)) := by
  induction fuel with
  | zero => intro d i a h; exact absurd h (Nat.not_lt_zero i)
  | succ n ih =>
    intro d i a h
    have hcond : (if nextBiomass gr dc sh 0 = 0 ∧ 20 < d ∧ (0.7 : ℚ) < strss then false else a) =
        (a && decide (d ≤ 20)) := by
      by_cases hd : 20 < d
      · rw [if_pos ⟨hz, hd, hstress⟩]
        have : ¬(d ≤ 20) := by omega
        simp [this]
      · rw [if_neg (fun hc => hd hc.2.1)]
        have : d ≤ 20 := by omega
        simp [this]
    match i with
    | 0 =>
      show (((stepDay gr dc sh strss d ⟨0, a⟩).2 ::
        (simLoop gr dc sh strss (stepDay gr dc sh strss d ⟨0, a⟩).1 (d + 1) n).1).getD 0
          defaultFrame).alive = (a && decide (d + 0 ≤ 20))
      rw [List.getD_cons_zero, stepDay_frame_alive, stepDay_state_eq]
      show (if nextBiomass gr dc sh 0 = 0 ∧ 20 < d ∧ (0.7 : ℚ) < strss then false else a) =
        (a && decide (d + 0 ≤ 20))
      rw [hcond]
      norm_num
    | i + 1 =>
      show (((stepDay gr dc sh strss d ⟨0, a⟩).2 ::
        (simLoop gr dc sh strss (stepDay gr dc sh strss d ⟨0, a⟩).1 (d + 1) n).1).getD (i + 1)
          defaultFrame).alive = (a && decide (d + (i + 1) ≤ 20))
      rw [List.getD_cons_succ, stepDay_state_eq, hcond, hz]
      rw [ih (d + 1) i (a && decide (d ≤ 20)) (by omega)]
      by_cases hd : d ≤ 20
      · have heq : (d + 1 + i ≤ 20) = (d + (i + 1) ≤ 20) := by
          apply propext
          omega
        simp [hd, heq]
      · have h1 : ¬(d + 1 + i ≤ 20) := by omega
        have h2 : ¬(d + (i + 1) ≤ 20) := by omega
        simp [hd, h1, h2]

/-- The rainfall shock is never negative (it is 0.003 or 0). -/
lemma shockOf_nonneg (clim : Climate) (reqs : CropRequirements) :
    0 ≤ shockOf clim reqs := by
  unfold shockOf
  rcases clim.annualRainMm with _ | rain
  · exact le_refl 0
  · dsimp only
    split_ifs <;> norm_num

/-- C3: for every input, aliveness along the emitted timeline is monotone
non-increasing: if the frame at position `i` (day `i + 1`) is dead, every
frame at a later position `j` (day `j + 1`) is dead too — the mortality
latch is one-way, nothing ever sets `alive` back to `true`. -/
theorem timeline_alive_antitone (clim : Climate) (soil : Soil) (reqs : CropRequirements) :
    ∀ i j : ℕ, i < (evaluate clim soil reqs).timeline.length →
      j < (evaluate clim soil reqs).timeline.length → i ≤ j →
      ((evaluate clim soil reqs).timeline.getD i defaultFrame).alive = false →
      ((evaluate clim soil reqs).timeline.getD j defaultFrame).alive = false := by
  intro i j hi hj hij hdead
  have hlen : (evaluate clim soil reqs).timeline.length = simDays :=
    simLoop_length _ _ _ _ simDays ⟨0, true⟩ 1
  exact simLoop_alive_antitone (growthRateOf clim soil reqs) (decayOf clim soil reqs)
    (shockOf clim reqs) (stressOf clim soil reqs) simDays ⟨0, true⟩ 1 i j
    (hlen ▸ hi) (hlen ▸ hj) hij hdead

/-- C4: for every input, the emitted timeline has exactly 120 frames, frame
`i` carries day number `i + 1` (so the days are exactly 1..120 in increasing
contiguous order), and every frame's biomass lies in `[0, 1]`. -/
theorem timeline_shape (clim : Climate) (soil : Soil) (reqs : CropRequirements) :
    (evaluate clim soil reqs).timeline.length = 120 ∧
    (∀ i : ℕ, i < (evaluate clim soil reqs).timeline.length →
      ((evaluate clim soil reqs).timeline.getD i defaultFrame).day = i + 1) ∧
    (∀ fr ∈ (evaluate clim soil reqs).timeline, 0 ≤ fr.biomass ∧ fr.biomass ≤ 1) := by
  have hlen : (evaluate clim soil reqs).timeline.length = simDays :=
    simLoop_length _ _ _ _ simDays ⟨0, true⟩ 1
  refine ⟨hlen, fun i hi => ?_, fun fr hfr => ?_⟩
  · have hday := simLoop_day (growthRateOf clim soil reqs) (decayOf clim soil reqs)
      (shockOf clim reqs) (stressOf clim soil reqs) simDays ⟨0, true⟩ 1 i (hlen ▸ hi)
    exact hday.trans (Nat.add_comm 1 i)
  · exact simLoop_biomass_bounds (growthRateOf clim soil reqs) (decayOf clim soil reqs)
      (shockOf clim reqs) (stressOf clim soil reqs) (shockOf_nonneg clim reqs)
      simDays ⟨0, true⟩ 1 fr hfr

/-! ## The worst-fit scenario: every fit is 0, envScore = 0 -/

lemma evalC2_tFit : tFitOf climC2 reqsC2 = 0 := by
  show (rangeFit climC2.tempC (some reqsC2.temperatureC)).toQ = 0
  have h1 : climC2.tempC = some 100 := rfl
  have h2 : reqsC2.temperatureC = ⟨10, 20, 12, 18⟩ := rfl
  rw [h1, h2, rangeFit_outside 100 _ (Or.inr (by norm_num))]
  rfl

lemma evalC2_rFit : rFitOf climC2 reqsC2 = 0 := by
  show (rangeFit climC2.annualRainMm reqsC2.annualRainfallMm).toQ = 0
  have h1 : climC2.annualRainMm = some 10000 := rfl
  have h2 : reqsC2.annualRainfallMm = some ⟨400, 800, 500, 700⟩ := rfl
  rw [h1, h2, rangeFit_outside 10000 _ (Or.inr (by norm_num))]
  rfl

lemma evalC2_sFit : sFitOf climC2 reqsC2 = 0 := by
  show (rangeFit climC2.solarMJm2day reqsC2.solarMJm2day).toQ = 0
  have h1 : climC2.solarMJm2day = some 100 := rfl
  have h2 : reqsC2.solarMJm2day = some ⟨10, 30, 15, 25⟩ := rfl
  rw [h1, h2, rangeFit_outside 100 _ (Or.inr (by norm_num))]
  rfl

lemma evalC2_soilQuality : soilQualityOf soilC2 reqsC2 = 0 := by
  show soilQuality soilC2.ph soilC2.clay soilC2.sand soilC2.soc (some reqsC2.soilPh)
    reqsC2.soilTexture = 0
  have h1 : soilC2.ph = some 100 := rfl
  have h2 : soilC2.clay = none := rfl
  have h3 : soilC2.sand = none := rfl
  have h4 : soilC2.soc = none := rfl
  have h5 : reqsC2.soilPh = ⟨5, 8, 6, 7⟩ := rfl
  rw [soilQuality, h1, h2, h3, h4, h5, rangeFit_outside 100 _ (Or.inr (by norm_num))]
  norm_num [texturePenalty, socBonus, JSVal.toQ, min_def, max_def]

lemma evalC2_envScore : envScoreOf climC2 soilC2 reqsC2 = 0 := by
  unfold envScoreOf
  rw [evalC2_tFit, evalC2_rFit, evalC2_sFit, evalC2_soilQuality]
  norm_num

lemma evalC2_stress : stressOf climC2 soilC2 reqsC2 = 1 := by
  unfold stressOf
  rw [evalC2_envScore]
  norm_num

lemma evalC2_growthRate : growthRateOf climC2 soilC2 reqsC2 = 0.012 := by
  unfold growthRateOf
  rw [evalC2_envScore]
  norm_num [SIMULATION_CONSTANTS_GROWTH]

lemma evalC2_decay : decayOf climC2 soilC2 reqsC2 = 0.016 := by
  unfold decayOf
  rw [evalC2_stress, if_pos (show SIMULATION_CONSTANTS_GROWTH.stressThreshold < 1 by
    norm_num [SIMULATION_CONSTANTS_GROWTH])]
  norm_num [SIMULATION_CONSTANTS_GROWTH]

lemma evalC2_shock : shockOf climC2 reqsC2 = 0 := by
  show (if (10000 : ℚ) < minRainOf reqsC2 then (0.003 : ℚ) else 0) = 0
  have hmr : minRainOf reqsC2 = 400 := rfl
  rw [hmr, if_neg (by norm_num : ¬(10000 : ℚ) < 400)]

lemma evalC2_nextBiomass :
    nextBiomass (growthRateOf climC2 soilC2 reqsC2) (decayOf climC2 soilC2 reqsC2)
      (shockOf climC2 reqsC2) 0 = 0 := by
  rw [evalC2_growthRate, evalC2_decay, evalC2_shock]
  unfold nextBiomass
  norm_num [min_def, max_def]

lemma evalC2_frames (i : ℕ) (h : i < 120) :
    ((evaluate climC2 soilC2 reqsC2).timeline.getD i defaultFrame).alive =
      decide (i + 1 ≤ 20) ∧
    ((evaluate climC2 soilC2 reqsC2).timeline.getD i defaultFrame).biomass = 0 := by
  constructor
  · have hl := simLoop_latch (growthRateOf climC2 soilC2 reqsC2)
      (decayOf climC2 soilC2 reqsC2) (shockOf climC2 reqsC2)
      (stressOf climC2 soilC2 reqsC2) evalC2_nextBiomass
      (by rw [evalC2_stress]; norm_num) simDays 1 i true (show i < simDays from h)
    have hcast : ((evaluate climC2 soilC2 reqsC2).timeline.getD i defaultFrame).alive =
        (true && decide (1 + i ≤ 20)) := hl
    rw [hcast, Bool.true_and, Nat.add_comm 1 i]
  · have hmem : ((evaluate climC2 soilC2 reqsC2).timeline.getD i defaultFrame) ∈
        (evaluate climC2 soilC2 reqsC2).timeline := by
      apply getD_mem_of_lt
      have hlen : (evaluate climC2 soilC2 reqsC2).timeline.length = 120 :=
        simLoop_length _ _ _ _ simDays ⟨0, true⟩ 1
      omega
    exact simLoop_zero_biomass (growthRateOf climC2 soilC2 reqsC2)
      (decayOf climC2 soilC2 reqsC2) (shockOf climC2 reqsC2)
      (stressOf climC2 soilC2 reqsC2) evalC2_nextBiomass simDays 1 true _ hmem

lemma evalC2_last_dead :
    ((evaluate climC2 soilC2 reqsC2).timeline.getLastD defaultFrame).alive = false := by
  have hlen : (evaluate climC2 soilC2 reqsC2).timeline.length = 120 :=
    simLoop_length _ _ _ _ simDays ⟨0, true⟩ 1
  have hne : (evaluate climC2 soilC2 reqsC2).timeline ≠ [] := by
    intro hnil
    rw [hnil] at hlen
    simp at hlen
  rw [getLastD_eq_getD _ _ hne, hlen, (evalC2_frames (120 - 1) (by norm_num)).1]
  decide

/-! ## Dead at the end implies status "fail" -/

/-- If the last timeline frame is dead, the classifier returns `"fail"`:
because the per-day increments are constant, biomass can hit 0 at a day past
20 only if zero biomass is a fixed point of the recurrence; then every frame
(including the last) has biomass 0 < 0.2, so both conjuncts of the fail rule
hold. -/
lemma status_fail_of_last_dead (clim : Climate) (soil : Soil) (reqs : CropRequirements)
    (h : ((evaluate clim soil reqs).timeline.getLastD defaultFrame).alive = false) :
    (evaluate clim soil reqs).status = "fail" := by
  have hlen : (simRun clim soil reqs).1.length = 120 :=
    simLoop_length _ _ _ _ simDays ⟨0, true⟩ 1
  have hne : (simRun clim soil reqs).1 ≠ [] := by
    intro hnil
    rw [hnil] at hlen
    simp at hlen
  have hfinal : (simRun clim soil reqs).2.alive = false := by
    show (simLoop (growthRateOf clim soil reqs) (decayOf clim soil reqs)
      (shockOf clim reqs) (stressOf clim soil reqs) ⟨0, true⟩ 1 simDays).2.alive = false
    rw [← simLoop_final_alive (growthRateOf clim soil reqs) (decayOf clim soil reqs)
      (shockOf clim reqs) (stressOf clim soil reqs) simDays ⟨0, true⟩ 1
      (by norm_num [simDays])]
    exact h
  rcases lt_or_eq_of_le (nextBiomass_nonneg (growthRateOf clim soil reqs)
      (decayOf clim soil reqs) (shockOf clim reqs) 0) with hpos | hzero
  · exfalso
    have hcontra : (simRun clim soil reqs).2.alive = true :=
      simLoop_alive_of_pos (growthRateOf clim soil reqs) (decayOf clim soil reqs)
        (shockOf clim reqs) (stressOf clim soil reqs) hpos simDays ⟨0, true⟩ 1 rfl
        (le_refl 0)
    exact Bool.noConfusion (hfinal.symm.trans hcontra)
  · have hbio : ∀ fr ∈ (simRun clim soil reqs).1, fr.biomass = 0 :=
      simLoop_zero_biomass (growthRateOf clim soil reqs) (decayOf clim soil reqs)
        (shockOf clim reqs) (stressOf clim soil reqs) hzero.symm simDays 1 true
    have hlast : ((simRun clim soil reqs).1.getLastD defaultFrame).biomass = 0 :=
      getLastD_prop (fun fr => fr.biomass = 0) _ _ hne hbio
    show statusOf clim soil reqs = "fail"
    unfold statusOf
    rw [if_pos ⟨hfinal, by rw [hlast]; norm_num⟩]

/-- C9: for every input, if the final timeline frame is dead then the status
is `"fail"`: with a constant per-day net increment, biomass can be 0 at a
day past 20 only if the increment from 0 is 0, in which case biomass is 0
on every day including day 120, so the `biomass < 0.2` conjunct of the fail
rule is automatically satisfied whenever the plant has died. -/
theorem final_dead_implies_fail (clim : Climate) (soil : Soil) (reqs : CropRequirements)
    (h : ((evaluate clim soil reqs).timeline.getLastD defaultFrame).alive = false) :
    (evaluate clim soil reqs).status = "fail" :=
  status_fail_of_last_dead clim soil reqs h

/-- C9 witness: in the worst-fit scenario the last frame is dead, and the
theorem yields status `"fail"` there. -/
theorem final_dead_implies_fail_witness :
    (evaluate climC2 soilC2 reqsC2).status = "fail" :=
  final_dead_implies_fail climC2 soilC2 reqsC2 evalC2_last_dead

/-- C2: in the worst-fit scenario (`envScore = 0`, hence `stress = 1`,
above the 0.6 threshold) decay exceeds growth from day 1, every emitted
frame has biomass 0, a frame is alive exactly while its day is at most 20
(so `alive` turns false at day 21 and stays false through day 120), and the
final status is `"fail"`. -/
theorem worst_fit_scenario :
    envScoreOf climC2 soilC2 reqsC2 = 0 ∧
    stressOf climC2 soilC2 reqsC2 = 1 ∧
    growthRateOf climC2 soilC2 reqsC2 < decayOf climC2 soilC2 reqsC2 ∧
    (evaluate climC2 soilC2 reqsC2).timeline.length = 120 ∧
    (∀ i : ℕ, i < 120 →
      ((evaluate climC2 soilC2 reqsC2).timeline.getD i defaultFrame).biomass = 0 ∧
      (((evaluate climC2 soilC2 reqsC2).timeline.getD i defaultFrame).alive = true ↔
        i + 1 ≤ 20)) ∧
    (evaluate climC2 soilC2 reqsC2).status = "fail" := by
  refine ⟨evalC2_envScore, evalC2_stress, ?_,
    simLoop_length _ _ _ _ simDays ⟨0, true⟩ 1, ?_,
    status_fail_of_last_dead climC2 soilC2 reqsC2 evalC2_last_dead⟩
  · rw [evalC2_growthRate, evalC2_decay]
    norm_num
  · intro i h
    refine ⟨(evalC2_frames i h).2, ?_⟩
    rw [(evalC2_frames i h).1]
    simp

/-- C2 witness: at day 21 (index 20) the frame has biomass 0 and is dead. -/
theorem worst_fit_scenario_witness :
    ((evaluate climC2 soilC2 reqsC2).timeline.getD 20 defaultFrame).biomass = 0 ∧
    (((evaluate climC2 soilC2 reqsC2).timeline.getD 20 defaultFrame).alive = true ↔
      20 + 1 ≤ 20) :=
  worst_fit_scenario.2.2.2.2.1 20 (by norm_num)

/-- C3 witness: in the worst-fit scenario the frame at index 20 (day 21) is
dead, and the theorem propagates death to index 119 (day 120). -/
theorem timeline_alive_antitone_witness :
    ((evaluate climC2 soilC2 reqsC2).timeline.getD 119 defaultFrame).alive = false := by
  have hlen : (evaluate climC2 soilC2 reqsC2).timeline.length = 120 :=
    simLoop_length _ _ _ _ simDays ⟨0, true⟩ 1
  apply timeline_alive_antitone climC2 soilC2 reqsC2 20 119 (by omega) (by omega)
    (by norm_num)
  rw [(evalC2_frames 20 (by norm_num)).1]
  decide

/-- C4 witness: the worst-fit scenario's timeline has 120 frames and its
first frame carries day 1. -/
theorem timeline_shape_witness :
    (evaluate climC2 soilC2 reqsC2).timeline.length = 120 ∧
    ((evaluate climC2 soilC2 reqsC2).timeline.getD 0 defaultFrame).day = 1 := by
  have h := timeline_shape climC2 soilC2 reqsC2
  exact ⟨h.1, h.2.1 0 (by rw [h.1]; norm_num)⟩

/-! ## Soil quality monotonicity and handler validation -/

/-- C7: holding pH, texture limits and the other soil inputs fixed,
`soilQuality` is monotone non-decreasing in a finite `soc`, and non-increasing
in clay (resp. sand) once it exceeds the crop's clay (resp. sand) maximum. -/
theorem soilQuality_monotone (ph clay sand soc : Option ℚ)
    (phRange : Option ThresholdRange) (tex : SoilTexture) :
    (∀ s1 s2 : ℚ, s1 ≤ s2 →
      soilQuality ph clay sand (some s1) phRange tex ≤
        soilQuality ph clay sand (some s2) phRange tex) ∧
    (∀ c1 c2 : ℚ, tex.clayMax < c1 → c1 ≤ c2 →
      soilQuality ph (some c2) sand soc phRange tex ≤
        soilQuality ph (some c1) sand soc phRange tex) ∧
    (∀ d1 d2 : ℚ, tex.sandMax < d1 → d1 ≤ d2 →
      soilQuality ph clay (some d2) soc phRange tex ≤
        soilQuality ph clay (some d1) soc phRange tex) := by
  refine ⟨fun s1 s2 hs => ?_, fun c1 c2 hc1 hc12 => ?_, fun d1 d2 hd1 hd12 => ?_⟩
  · have hF : (0 : ℚ) < SIMULATION_CONSTANTS_SOIL.socContributionFactor := by
      norm_num [SIMULATION_CONSTANTS_SOIL]
    have hbonus : socBonus (some s1) ≤ socBonus (some s2) := by
      unfold socBonus
      exact min_le_min le_rfl ((div_le_div_iff_of_pos_right hF).mpr hs)
    unfold soilQuality
    exact max_le_max le_rfl (min_le_min le_rfl (by linarith))
  · have hc2 : tex.clayMax < c2 := lt_of_lt_of_le hc1 hc12
    simp only [soilQuality, texturePenalty, hc1, hc2, if_true]
    exact le_refl _
  · have hd2 : tex.sandMax < d2 := lt_of_lt_of_le hd1 hd12
    simp only [soilQuality, texturePenalty, hd1, hd2, if_true]
    exact le_refl _

/-- C7 witness: concrete instances of both monotonicity directions with a
neutral pH range. -/
theorem soilQuality_monotone_witness :
    soilQuality (some 6.5) none none (some 10) (some ⟨5, 8, 6, 7⟩) ⟨40, 60⟩ ≤
      soilQuality (some 6.5) none none (some 20) (some ⟨5, 8, 6, 7⟩) ⟨40, 60⟩ ∧
    soilQuality (some 6.5) (some 55) none (some 10) (some ⟨5, 8, 6, 7⟩) ⟨40, 60⟩ ≤
      soilQuality (some 6.5) (some 45) none (some 10) (some ⟨5, 8, 6, 7⟩) ⟨40, 60⟩ :=
  ⟨(soilQuality_monotone (some 6.5) none none none (some ⟨5, 8, 6, 7⟩) ⟨40, 60⟩).1
      10 20 (by norm_num),
   (soilQuality_monotone (some 6.5) none none (some 10) (some ⟨5, 8, 6, 7⟩) ⟨40, 60⟩).2.1
      45 55 (by norm_num) (by norm_num)⟩

/-- C8: crop requirements missing any of `temperatureC`, `soilPh` or
`soilTexture` make the request fail fast with `invalidCropRequirements`
and no simulation result; when the three are present, evaluation succeeds
for every climate and soil observation — missing or non-finite numeric
scalars (the `none` fields of `Climate`/`Soil`) never trigger the failure. -/
theorem handler_requires_structure (raw : RawCropRequirements) (clim : Climate)
    (soil : Soil) :
    ((raw.temperatureC = none ∨ raw.soilPh = none ∨ raw.soilTexture = none) →
      simulateHandler raw clim soil = Except.error SimError.invalidCropRequirements) ∧
    (∀ t sp sx, raw.temperatureC = some t → raw.soilPh = some sp →
      raw.soilTexture = some sx →
      ∃ res, simulateHandler raw clim soil = Except.ok res) := by
  constructor
  · intro h
    unfold simulateHandler validateCropData
    rcases hT : raw.temperatureC with _ | t <;>
      rcases hP : raw.soilPh with _ | sp <;>
        rcases hX : raw.soilTexture with _ | sx <;>
          simp_all
  · intro t sp sx hT hP hX
    refine ⟨evaluate clim soil ⟨t, raw.annualRainfallMm, raw.solarMJm2day, sp, sx⟩, ?_⟩
    unfold simulateHandler validateCropData
    simp only [hT, hP, hX]

/-- C8 witness: the concrete raw data missing `soilTexture` fails with
`invalidCropRequirements`, while the structurally complete raw data (with
both optional ranges absent) succeeds. -/
theorem handler_requires_structure_witness :
    simulateHandler rawMissingTexture climC2 soilC2 =
      Except.error SimError.invalidCropRequirements ∧
    ∃ res, simulateHandler rawComplete climC2 soilC2 = Except.ok res :=
  ⟨(handler_requires_structure rawMissingTexture climC2 soilC2).1 (Or.inr (Or.inr rfl)),
   (handler_requires_structure rawComplete climC2 soilC2).2 ⟨10, 20, 12, 18⟩ ⟨5, 8, 6, 7⟩
     ⟨40, 60⟩ rfl rfl rfl⟩
